import Mathlib

/-
Verification of doc/examples/scripts/batch_analyze.py.

The script is embedded shallowly: the external world (the subprocess
launcher) is an oracle mapping an argument vector to a completed-process
result, and the script itself is a term of a small free monad whose
effects are exactly the script's interactions with the world: running a
subprocess, writing a file, printing a line.  Interpreting the term
against an oracle yields both the script's value (the results list) and
the ordered trace of its effects, so claims about invocation order,
outputs and error handling become theorems about the interpreter.
-/

namespace BatchAnalyze

/-- Result of a completed subprocess as captured by
subprocess.run(..., capture_output=True, text=True): separate stdout and
stderr texts, plus the exit status. -/
structure CompletedProcess where
  stdout : String
  stderr : String
  returncode : Int
deriving DecidableEq

/-- The external world: for each argument vector, the result the
subprocess launcher would produce for it on this run. -/
def Exec : Type := List String → CompletedProcess

/-- The record built for each file, mirroring the dict literal in
analyze_file: keys file, output, errors in that order. -/
structure AnalysisRecord where
  file : String
  output : String
  errors : String
deriving DecidableEq

/-- The fragment of JSON the script produces with json.dump. -/
inductive Json where
  | str : String → Json
  | arr : List Json → Json
  | obj : List (String × Json) → Json

/-- Keys of a JSON object, in order; empty for non-objects. -/
def Json.keys : Json → List String
  | .obj l => l.map Prod.fst
  | _ => []

/-- Length of a JSON array; zero for non-arrays. -/
def Json.arrayLength : Json → Nat
  | .arr l => l.length
  | _ => 0

/-- One observable action of the script: a subprocess invocation with its
argument vector, a file written, or a line printed to stdout. -/
inductive Event where
  | ran : List String → Event
  | wrote : String → Json → Event
  | printed : String → Event

/-- Effectful programs: a value, or one of the script's three effects
followed by a continuation.  run blocks on the subprocess result, so
sequencing is waiting. -/
inductive Proc (α : Type) where
  | pure : α → Proc α
  | run : List String → (CompletedProcess → Proc α) → Proc α
  | write : String → Json → Proc α → Proc α
  | print : String → Proc α → Proc α

/-- Sequencing of effectful programs. -/
def Proc.bind {α β : Type} : Proc α → (α → Proc β) → Proc β
  | .pure a, k => k a
  | .run c f, k => .run c fun r => Proc.bind (f r) k
  | .write p j rest, k => .write p j (Proc.bind rest k)
  | .print s rest, k => .print s (Proc.bind rest k)

/-- Interpret a program against an oracle: its value together with the
ordered trace of events.  Exactly one subprocess is in flight at a time:
a run event's continuation is only interpreted on the oracle's result for
that very invocation. -/
def Proc.interp {α : Type} (exec : Exec) : Proc α → α × List Event
  | .pure a => (a, [])
  | .run c k =>
      (((k (exec c)).interp exec).1, Event.ran c :: ((k (exec c)).interp exec).2)
  | .write p j rest =>
      ((rest.interp exec).1, Event.wrote p j :: (rest.interp exec).2)
  | .print s rest =>
      ((rest.interp exec).1, Event.printed s :: (rest.interp exec).2)

/-- The argument vector of lines 10-14 of the script: every element but
the file path is a literal constant. -/
def analyzeCmd (filepath : String) : List String :=
  ["swissarmyhammer", "test", "review/code",
   "--file_path", filepath,
   "--context", "batch analysis"]

/-- analyze_file: run the fixed command on the file, then build the
record from the captured stdout and stderr.  The returncode of the
result is never consulted. -/
def analyze_file (filepath : String) : Proc AnalysisRecord :=
  Proc.run (analyzeCmd filepath) fun result =>
    Proc.pure { file := filepath, output := result.stdout, errors := result.stderr }

/-- Does a path component begin with a dot?  Python's glob never matches
such components unless the pattern component itself begins with a dot. -/
def startsWithDot (s : String) : Bool :=
  match s.data with
  | [] => false
  | c :: _ => c == '.'

/-- Does a path component end in ".py"? -/
def endsWithPy (s : String) : Bool :=
  List.isSuffixOf ".py".data s.data

/-- glob.glob('**/*.py', recursive=True) membership for a relative path
given by its components: every directory component is matched by '**',
which skips hidden entries, and the final component is matched by
'*.py', whose '*' cannot match a leading dot. -/
def globMatch : List String → Bool
  | [] => false
  | [name] => (!startsWithDot name) && endsWithPy name
  | c :: rest => (!startsWithDot c) && globMatch rest

/-- Join path components the way glob returns them. -/
def pathToString (p : List String) : String :=
  String.intercalate "/" p

/-- files = glob.glob('**/*.py', recursive=True): the matching paths of
the working directory's file tree fs, in discovery order. -/
def files (fs : List (List String)) : List String :=
  (fs.filter fun p => globMatch p).map pathToString

/-- The sequential list comprehension of line 24: analyze each file in
order, collecting the records. -/
def analyzeAll : List String → Proc (List AnalysisRecord)
  | [] => Proc.pure []
  | f :: rest =>
      Proc.bind (analyze_file f) fun r =>
        Proc.bind (analyzeAll rest) fun rs =>
          Proc.pure (r :: rs)

/-- Serialization of one record by json.dump: an object with the dict's
keys in insertion order. -/
def recordToJson (r : AnalysisRecord) : Json :=
  Json.obj [("file", Json.str r.file), ("output", Json.str r.output), ("errors", Json.str r.errors)]

/-- The summary line of line 30. -/
def summaryLine (n : Nat) : String :=
  "Analyzed " ++ toString n ++ " files. Results saved to analysis_results.json"

/-- The whole script, parametrised by the file tree: discover, analyze
each file, write the JSON file, print the summary. -/
def script (fs : List (List String)) : Proc (List AnalysisRecord) :=
  Proc.bind (analyzeAll (files fs)) fun results =>
    Proc.write "analysis_results.json" (Json.arr (results.map recordToJson))
      (Proc.print (summaryLine (files fs).length)
        (Proc.pure results))

/-- One run of the script against an oracle: the results list and the
event trace. -/
def runScript (exec : Exec) (fs : List (List String)) : List AnalysisRecord × List Event :=
  (script fs).interp exec

/-- The record analyze_file produces for a file under a given oracle. -/
def analyzeRecord (exec : Exec) (f : String) : AnalysisRecord :=
  { file := f
    output := (exec (analyzeCmd f)).stdout
    errors := (exec (analyzeCmd f)).stderr }

/-- The argument vectors of the subprocess invocations of a trace, in
order. -/
def ranCmds : List Event → List (List String)
  | [] => []
  | Event.ran c :: rest => c :: ranCmds rest
  | _ :: rest => ranCmds rest

/-- The files written by a trace, in order. -/
def wroteEvents : List Event → List (String × Json)
  | [] => []
  | Event.wrote p j :: rest => (p, j) :: wroteEvents rest
  | _ :: rest => wroteEvents rest

/-- The lines printed by a trace, in order. -/
def printedEvents : List Event → List String
  | [] => []
  | Event.printed s :: rest => s :: printedEvents rest
  | _ :: rest => printedEvents rest

/-- The reading of the claim's words "names match the suffix pattern
'*.py'" as a pure suffix test on the file name, stated independently of
the code for comparison with globMatch. -/
def specSuffixMatch : List String → Bool
  | [] => false
  | [name] => endsWithPy name
  | _ :: rest => specSuffixMatch rest

/-- A concrete oracle for witnesses: every invocation succeeds with
fixed texts. -/
def execO : Exec := fun _ => { stdout := "OUT", stderr := "ERR", returncode := 0 }

/-- The same texts as execO but a failing exit status. -/
def execFail : Exec := fun _ => { stdout := "OUT", stderr := "ERR", returncode := 1 }

/-- A concrete two-file tree for witnesses. -/
def fsW : List (List String) := [["a.py"], ["d", "b.py"], ["notes.txt"]]

/-- A tree whose only file is a hidden Python file. -/
def fsHidden : List (List String) := [[".hidden.py"]]

/-- A tree with no Python file at all. -/
def fsNone : List (List String) := [["readme.md"], ["srcdir", "main.c"]]

theorem interp_bind {α β : Type} (exec : Exec) (m : Proc α) (k : α → Proc β) :
    (Proc.bind m k).interp exec =
      (((k (m.interp exec).1).interp exec).1,
        (m.interp exec).2 ++ ((k (m.interp exec).1).interp exec).2) := by
  induction m with
  | pure a => rfl
  | run c f ih => simp [Proc.bind, Proc.interp, ih]
  | write p j rest ih => simp [Proc.bind, Proc.interp, ih]
  | print s rest ih => simp [Proc.bind, Proc.interp, ih]

theorem analyzeAll_interp (exec : Exec) (l : List String) :
    (analyzeAll l).interp exec =
      (l.map (analyzeRecord exec), l.map fun f => Event.ran (analyzeCmd f)) := by
  induction l with
  | nil => rfl
  | cons f rest ih =>
      simp [analyzeAll, analyze_file, interp_bind, Proc.bind, Proc.interp, ih, analyzeRecord]

theorem runScript_eq (exec : Exec) (fs : List (List String)) :
    runScript exec fs =
      ((files fs).map (analyzeRecord exec),
        ((files fs).map fun f => Event.ran (analyzeCmd f)) ++
          [Event.wrote "analysis_results.json"
              (Json.arr (((files fs).map (analyzeRecord exec)).map recordToJson)),
            Event.printed (summaryLine (files fs).length)]) := by
  simp [runScript, script, interp_bind, analyzeAll_interp, Proc.interp]

theorem ranCmds_append (t1 t2 : List Event) :
    ranCmds (t1 ++ t2) = ranCmds t1 ++ ranCmds t2 := by
  induction t1 with
  | nil => rfl
  | cons e rest ih => cases e <;> simp [ranCmds, ih]

theorem wroteEvents_append (t1 t2 : List Event) :
    wroteEvents (t1 ++ t2) = wroteEvents t1 ++ wroteEvents t2 := by
  induction t1 with
  | nil => rfl
  | cons e rest ih => cases e <;> simp [wroteEvents, ih]

theorem printedEvents_append (t1 t2 : List Event) :
    printedEvents (t1 ++ t2) = printedEvents t1 ++ printedEvents t2 := by
  induction t1 with
  | nil => rfl
  | cons e rest ih => cases e <;> simp [printedEvents, ih]

theorem ranCmds_map_ran (l : List String) (g : String → List String) :
    ranCmds (l.map fun f => Event.ran (g f)) = l.map g := by
  induction l with
  | nil => rfl
  | cons f rest ih => simp [ranCmds, ih]

theorem wroteEvents_map_ran (l : List String) (g : String → List String) :
    wroteEvents (l.map fun f => Event.ran (g f)) = [] := by
  induction l with
  | nil => rfl
  | cons f rest ih => simp [wroteEvents, ih]

theorem printedEvents_map_ran (l : List String) (g : String → List String) :
    printedEvents (l.map fun f => Event.ran (g f)) = [] := by
  induction l with
  | nil => rfl
  | cons f rest ih => simp [printedEvents, ih]

/-- C1: on every file tree, the JSON array written to the results file
has exactly one entry per discovered file, each entry an object with
exactly the keys file, output, errors, and the entries appear in
discovery order (the i-th entry serializes the record of the i-th
discovered file). -/
theorem output_array_shape (exec : Exec) (fs : List (List String)) :
    wroteEvents (runScript exec fs).2 =
      [("analysis_results.json",
        Json.arr ((files fs).map fun f => recordToJson (analyzeRecord exec f)))] ∧
    ((files fs).map fun f => recordToJson (analyzeRecord exec f)).length =
      (files fs).length ∧
    (((files fs).map fun f => recordToJson (analyzeRecord exec f)).all
      fun e => Json.keys e == ["file", "output", "errors"]) = true := by
  refine ⟨?_, by simp, ?_⟩
  · rw [runScript_eq]
    simp [wroteEvents_append, wroteEvents_map_ran, wroteEvents]
  · simp [List.all_eq_true, Json.keys, recordToJson]

/-- C2: for every discovered file, the i-th subprocess invocation is the
literal command vector with only the i-th file path inserted after the
file-path flag, and the i-th record's file field is that same path. -/
theorem command_fixed (exec : Exec) (fs : List (List String)) (i : Nat)
    (h : i < (files fs).length) :
    (runScript exec fs).2[i]? =
      some (Event.ran ["swissarmyhammer", "test", "review/code",
        "--file_path", (files fs)[i], "--context", "batch analysis"]) ∧
    ((runScript exec fs).1[i]?.map fun r => r.file) = some ((files fs)[i]) := by
  rw [runScript_eq]
  have h1 : i < ((files fs).map fun f => Event.ran (analyzeCmd f)).length := by
    simpa using h
  rw [List.getElem?_append_left h1]
  simp [List.getElem?_map, List.getElem?_eq_getElem h, analyzeCmd, analyzeRecord]

/-- C2 witness at a concrete oracle and tree. -/
theorem command_fixed_w :
    (runScript execO fsW).2[1]? =
      some (Event.ran ["swissarmyhammer", "test", "review/code",
        "--file_path", "d/b.py", "--context", "batch analysis"]) ∧
    ((runScript execO fsW).1[1]?.map fun r => r.file) = some "d/b.py" :=
  command_fixed execO fsW 1 (by decide)

/-- C3 counterexample: stdout and stderr are not combined into a single
text value; with stdout OUT and stderr ERR the record keeps them in two
separate fields, and no field holds the combined text. -/
theorem combined_capture_cex :
    ((runScript execO [["a.py"]]).1.map fun r => r.output) = ["OUT"] ∧
    ((runScript execO [["a.py"]]).1.map fun r => r.errors) = ["ERR"] ∧
    execO (analyzeCmd "a.py") =
      { stdout := "OUT", stderr := "ERR", returncode := 0 } ∧
    ¬ ("OUT" = "OUT" ++ "ERR" ∨ "ERR" = "OUT" ++ "ERR") := by
  decide

/-- C3 amended: for every discovered file the record captures the
subprocess's stdout and stderr as two separate text values, stdout in
the output field and stderr in the errors field. -/
theorem streams_captured_separately (exec : Exec) (fs : List (List String)) (i : Nat)
    (h : i < (files fs).length) :
    (runScript exec fs).1[i]? =
      some { file := (files fs)[i]
             output := (exec (analyzeCmd ((files fs)[i]))).stdout
             errors := (exec (analyzeCmd ((files fs)[i]))).stderr } := by
  rw [runScript_eq]
  simp [List.getElem?_map, List.getElem?_eq_getElem h, analyzeRecord]

/-- C3 amended witness at a concrete oracle and tree. -/
theorem streams_captured_separately_w :
    (runScript execO fsW).1[0]? =
      some { file := "a.py", output := "OUT", errors := "ERR" } :=
  streams_captured_separately execO fsW 0 (by decide)

/-- C4: the exit status is never inspected: two oracles that agree on
stdout and stderr for every command, whatever their exit statuses,
produce identical runs (same records, same trace). -/
theorem exit_status_ignored (e1 e2 : Exec) (fs : List (List String))
    (hout : ∀ c, (e1 c).stdout = (e2 c).stdout)
    (herr : ∀ c, (e1 c).stderr = (e2 c).stderr) :
    runScript e1 fs = runScript e2 fs := by
  have hrec : analyzeRecord e1 = analyzeRecord e2 := by
    funext f
    simp [analyzeRecord, hout, herr]
  rw [runScript_eq, runScript_eq, hrec]

/-- C4 witness: two oracles with the same texts but exit statuses 0 and
1 yield identical runs on a concrete tree. -/
theorem exit_status_ignored_w :
    execO (analyzeCmd "a.py") ≠ execFail (analyzeCmd "a.py") ∧
    runScript execO fsW = runScript execFail fsW :=
  ⟨by decide, exit_status_ignored execO execFail fsW (fun c => rfl) (fun c => rfl)⟩

/-- C5: a failing subprocess (non-zero exit status) is recorded only as
the captured stderr text in the errors field: analyze_file still returns
a record (it never fails), built from file, stdout and stderr alone, and
its trace is exactly the one invocation, with no extra handling. -/
theorem failure_recorded_not_raised (exec : Exec) (f : String)
    (hfail : (exec (analyzeCmd f)).returncode ≠ 0) :
    (analyze_file f).interp exec =
      ({ file := f
         output := (exec (analyzeCmd f)).stdout
         errors := (exec (analyzeCmd f)).stderr },
        [Event.ran (analyzeCmd f)]) := by
  simp [analyze_file, Proc.interp]

/-- C5 witness at a concrete failing oracle. -/
theorem failure_recorded_not_raised_w :
    (execFail (analyzeCmd "a.py")).returncode ≠ 0 ∧
    (analyze_file "a.py").interp execFail =
      ({ file := "a.py", output := "OUT", errors := "ERR" },
        [Event.ran (analyzeCmd "a.py")]) :=
  ⟨by decide, failure_recorded_not_raised execFail "a.py" (by decide)⟩

/-- C6: the subprocess invocations of a run are exactly one per
discovered file, in discovery order; sequencing is blocking by
construction of the interpreter, so one invocation completes before the
next begins. -/
theorem sequential_invocations (exec : Exec) (fs : List (List String)) :
    ranCmds (runScript exec fs).2 = (files fs).map analyzeCmd := by
  rw [runScript_eq]
  simp [ranCmds_append, ranCmds_map_ran, ranCmds]

/-- C7 counterexample: a hidden Python file has the .py suffix but is
never discovered nor analyzed: glob does not match hidden files. -/
theorem hidden_file_cex :
    specSuffixMatch [".hidden.py"] = true ∧
    fsHidden = [[".hidden.py"]] ∧
    (runScript execO fsHidden).1 = [] ∧
    ranCmds (runScript execO fsHidden).2 = [] := by
  refine ⟨by decide, rfl, ?_, ?_⟩ <;> decide

/-- C7 amended: the analyzed files are exactly the files of the working
directory's tree matched by the glob pattern, and glob matching is the
.py suffix test restricted to paths none of whose components begins
with a dot. -/
theorem discovery_matches_glob (exec : Exec) (fs : List (List String)) :
    ((runScript exec fs).1.map fun r => r.file) =
      ((fs.filter fun p => globMatch p).map pathToString) ∧
    ∀ p : List String,
      globMatch p = ((p.all fun c => !startsWithDot c) && specSuffixMatch p) := by
  constructor
  · rw [runScript_eq]
    simp [files, analyzeRecord, List.map_map, Function.comp]
  · intro p
    induction p with
    | nil => rfl
    | cons c rest ih =>
        cases rest with
        | nil => simp [globMatch, specSuffixMatch]
        | cons d rest2 =>
            simp only [globMatch, specSuffixMatch, List.all_cons] at ih ⊢
            rw [ih]
            cases startsWithDot c <;> cases startsWithDot d <;> simp

/-- C8: the observable outputs of a run are exactly the subprocess
invocations in discovery order, then the JSON file written at the fixed
relative path, then exactly one summary line printed; nothing else. -/
theorem outputs_trace (exec : Exec) (fs : List (List String)) :
    (runScript exec fs).2 =
      ((files fs).map fun f => Event.ran (analyzeCmd f)) ++
        [Event.wrote "analysis_results.json"
            (Json.arr (((files fs).map (analyzeRecord exec)).map recordToJson)),
          Event.printed (summaryLine (files fs).length)] :=
  congrArg Prod.snd (runScript_eq exec fs)

/-- C9: the count printed in the summary line and the length of the JSON
array written to the results file are the same number: the length of the
discovered-file list. -/
theorem count_matches_array (exec : Exec) (fs : List (List String)) :
    ∃ j n, wroteEvents (runScript exec fs).2 = [("analysis_results.json", j)] ∧
      printedEvents (runScript exec fs).2 = [summaryLine n] ∧
      Json.arrayLength j = n := by
  refine ⟨Json.arr (((files fs).map (analyzeRecord exec)).map recordToJson),
    (files fs).length, ?_, ?_, ?_⟩
  · rw [runScript_eq]
    simp [wroteEvents_append, wroteEvents_map_ran, wroteEvents]
  · rw [runScript_eq]
    simp [printedEvents_append, printedEvents_map_ran, printedEvents]
  · simp [Json.arrayLength]

/-- C10: when no file matches, the run completes normally: no subprocess
is invoked, the results file is written with an empty JSON array, and
the summary line reports 0 files. -/
theorem empty_discovery (exec : Exec) (fs : List (List String))
    (h : files fs = []) :
    runScript exec fs =
      ([], [Event.wrote "analysis_results.json" (Json.arr []),
            Event.printed (summaryLine 0)]) ∧
    ranCmds (runScript exec fs).2 = [] := by
  rw [runScript_eq, h]
  exact ⟨rfl, rfl⟩

/-- C10 witness: a tree with no Python file. -/
theorem empty_discovery_w :
    files fsNone = [] ∧
    (runScript execO fsNone =
      ([], [Event.wrote "analysis_results.json" (Json.arr []),
            Event.printed (summaryLine 0)]) ∧
    ranCmds (runScript execO fsNone).2 = []) :=
  ⟨by decide, empty_discovery execO fsNone (by decide)⟩

end BatchAnalyze
